import Mathlib

/-!
Verification of three standalone diagnostic scripts (`test_db_query.py`,
`test_leaderboard.py`, `verify_login_fix.py`) against their natural-language
specification.  Each script is embedded shallowly as a pure function from an
environment (the responses of the external services the script contacts: a
MySQL server, a local HTTP backend, a PowerShell subprocess) to a run trace
recording the console output, the external requests issued, and whether an
uncaught Python exception escapes the script's entry function.
-/

set_option maxHeartbeats 1000000

/-- Model of a Python exception value as it matters to these scripts. -/
inductive PyExc where
  | mysqlError (msg : String)
  | unboundLocalError (name : String)
  | generic (msg : String)
deriving DecidableEq, Repr

/-- The text `str(e)` interpolated into the scripts' f-strings. -/
def pyExcMsg : PyExc → String
  | .mysqlError m => m
  | .unboundLocalError n => "cannot access local variable " ++ n ++ " where it is not associated with a value"
  | .generic m => m

/-- A scalar value in a row returned by the MySQL cursor. -/
inductive PyVal where
  | int (n : Int)
  | str (s : String)
  | noneVal
deriving DecidableEq, Repr

/-- How `str(v)` renders a row scalar inside an f-string. -/
def pyValStr : PyVal → String
  | .int n => toString n
  | .str s => s
  | .noneVal => "None"

/- ### test_db_query.py -/

/-- The literal schema-description statement of `test_db_query.py`. -/
def describeStmt : String := "DESCRIBE users"

/-- The first ordering query, using the column name `createdAt`. -/
def leaderboardQueryGood : String :=
  "SELECT id, username, nickname, points FROM users ORDER BY points DESC, createdAt ASC LIMIT 5"

/-- The second ordering query, using the column name `created_at`. -/
def leaderboardQueryBad : String :=
  "SELECT id, username FROM users ORDER BY points DESC, created_at ASC LIMIT 1"

/-- Environment of the database script: the outcome of
`mysql.connector.connect`, of `connection.is_connected()`, and of each
`cursor.execute`/`fetchall` pair, keyed by the literal SQL text.  A `.error`
models a raised `mysql.connector.Error` carrying its message. -/
structure DbEnv where
  connectResult : Except String Unit
  isConnected : Bool
  query : String → Except String (List (List PyVal))

/-- Trace of one run of `test_database_query`: console lines, SQL statements
passed to `cursor.execute` in order, and the resource bookkeeping used to
state the cleanup property. -/
structure DbTrace where
  output : List String
  queries : List String
  connOpened : Bool
  cursorOpened : Bool
  cursorClosed : Bool
  connClosed : Bool
deriving DecidableEq, Repr

/-- Python tuple indexing `row[i]`: raises `IndexError` out of range. -/
def pyIndex (row : List PyVal) (i : Nat) : Except PyExc PyVal :=
  match row.get? i with
  | some v => .ok v
  | none => .error (.generic "IndexError: tuple index out of range")

/-- The loop `for col in columns: print(f"  {col[0]} - {col[1]}")`: lines
printed before an `IndexError`, and the error if one is raised. -/
def describeLines : List (List PyVal) → List String × Except PyExc Unit
  | [] => ([], .ok ())
  | row :: rest =>
    match pyIndex row 0 with
    | .error e => ([], .error e)
    | .ok a =>
      match pyIndex row 1 with
      | .error e => ([], .error e)
      | .ok b =>
        (("  " ++ pyValStr a ++ " - " ++ pyValStr b) :: (describeLines rest).1,
         (describeLines rest).2)

/-- The loop `for i, user in enumerate(users, 1): print(...)` of the first
ordering query, indexing `user[1]`, `user[2]`, `user[3]`. -/
def enumUserLines (i : Nat) : List (List PyVal) → List String × Except PyExc Unit
  | [] => ([], .ok ())
  | u :: rest =>
    match pyIndex u 1 with
    | .error e => ([], .error e)
    | .ok a =>
      match pyIndex u 2 with
      | .error e => ([], .error e)
      | .ok b =>
        match pyIndex u 3 with
        | .error e => ([], .error e)
        | .ok c =>
          (("  " ++ toString i ++ ". " ++ pyValStr a ++ " (" ++ pyValStr b ++ ") - " ++ pyValStr c ++ "分") :: (enumUserLines (i + 1) rest).1,
           (enumUserLines (i + 1) rest).2)

/-- Section 2 of the script: the `createdAt` ordering query inside its own
`try`, whose `except Exception` also catches indexing errors mid-loop. -/
def goodQuerySection (env : DbEnv) : List String :=
  "\n2. 测试排行榜查询:" ::
    match env.query leaderboardQueryGood with
    | .error e => ["❌ 查询失败: " ++ e]
    | .ok users =>
      "✅ 查询成功！" :: (enumUserLines 1 users).1 ++
        (match (enumUserLines 1 users).2 with
         | .ok _ => []
         | .error e => ["❌ 查询失败: " ++ pyExcMsg e])

/-- Section 3 of the script: the `created_at` ordering query inside its own
`try`, expected to fail. -/
def badQuerySection (env : DbEnv) : List String :=
  "\n3. 测试错误的字段名:" ::
    match env.query leaderboardQueryBad with
    | .ok _ => ["❌ 不应该成功"]
    | .error e => ["✅ 预期的错误: " ++ e]

/-- Shallow embedding of `test_database_query`.  The second component is the
result of the call: `.ok ()` when the function returns normally, `.error e`
when the exception `e` escapes it.  When `connect` raises, the outer
`except` prints the message, but the `finally` block then reads the local
`connection`, which was never assigned, so `UnboundLocalError` escapes. -/
def test_database_query (env : DbEnv) : DbTrace × Except PyExc Unit :=
  match env.connectResult with
  | .error e =>
    ({ output := ["MySQL error: " ++ e], queries := [], connOpened := false,
       cursorOpened := false, cursorClosed := false, connClosed := false },
     .error (.unboundLocalError "connection"))
  | .ok _ =>
    if env.isConnected then
      let hdr := ["=== 测试数据库查询 ===", "\n1. 检查用户表结构:"]
      match env.query describeStmt with
      | .error e =>
        ({ output := hdr ++ ["MySQL error: " ++ e], queries := [describeStmt],
           connOpened := true, cursorOpened := true, cursorClosed := true, connClosed := true },
         .ok ())
      | .ok cols =>
        match (describeLines cols).2 with
        | .error e =>
          ({ output := hdr ++ (describeLines cols).1 ++ ["Error: " ++ pyExcMsg e],
             queries := [describeStmt],
             connOpened := true, cursorOpened := true, cursorClosed := true, connClosed := true },
           .ok ())
        | .ok _ =>
          ({ output := hdr ++ (describeLines cols).1 ++ goodQuerySection env ++ badQuerySection env,
             queries := [describeStmt, leaderboardQueryGood, leaderboardQueryBad],
             connOpened := true, cursorOpened := true, cursorClosed := true, connClosed := true },
           .ok ())
    else
      ({ output := [], queries := [], connOpened := true,
         cursorOpened := false, cursorClosed := false, connClosed := false },
       .ok ())

/- ### verify_login_fix.py -/

/-- A parsed JSON value, as produced by `response.json()`. -/
inductive Json where
  | null
  | bool (b : Bool)
  | num (n : Int)
  | str (s : String)
  | arr (elems : List Json)
  | obj (fields : List (String × Json))

mutual

/-- Python `repr` of a decoded JSON value (dicts and lists print recursively). -/
def pyRepr : Json → String
  | .null => "None"
  | .bool true => "True"
  | .bool false => "False"
  | .num n => toString n
  | .str s => "\"" ++ s ++ "\""
  | .arr xs => "[" ++ pyReprList xs ++ "]"
  | .obj fs => "\x7b" ++ pyReprFields fs ++ "\x7d"

/-- `repr` of the elements of a decoded JSON list. -/
def pyReprList : List Json → String
  | [] => ""
  | [x] => pyRepr x
  | x :: y :: xs => pyRepr x ++ ", " ++ pyReprList (y :: xs)

/-- `repr` of the items of a decoded JSON dict. -/
def pyReprFields : List (String × Json) → String
  | [] => ""
  | [(k, v)] => "\"" ++ k ++ "\": " ++ pyRepr v
  | (k, v) :: f :: fs => "\"" ++ k ++ "\": " ++ pyRepr v ++ ", " ++ pyReprFields (f :: fs)

end

/-- Python `str` of a decoded JSON value, as interpolated into an f-string. -/
def pyJsonStr : Json → String
  | .str s => s
  | v => pyRepr v

/-- An outbound HTTP request as issued through `requests`. -/
structure HttpRequest where
  method : String
  url : String
  jsonBody : Option (List (String × String))
  contentTypeJson : Bool
  timeout : Nat
deriving DecidableEq, Repr

/-- The outcome of one `requests` call: the exceptions the script
distinguishes, or a response with status code, raw text and the result of
JSON-decoding the body (`none` when `response.json()` would raise). -/
inductive HttpOutcome where
  | connError
  | timeoutErr
  | otherError (msg : String)
  | ok (status : Nat) (text : String) (body : Option Json)

/-- `base_url` of `verify_login_fix.py`. -/
def base_url : String := "http://localhost:1874/api/v1"

/-- The hardcoded credential list `test_users`. -/
def test_users : List (String × String) :=
  [("root", "root123456"), ("mengshang004", "123456")]

/-- The POST request `test_login` sends for one credential pair. -/
def loginRequest (u p : String) : HttpRequest :=
  { method := "POST", url := base_url ++ "/auth/login",
    jsonBody := some [("username", u), ("password", p)],
    contentTypeJson := true, timeout := 10 }

/-- The GET request of `check_backend_status`. -/
def healthRequest : HttpRequest :=
  { method := "GET", url := "http://localhost:1874/health",
    jsonBody := none, contentTypeJson := false, timeout := 5 }

/-- Environment of the login script: the outcome of each HTTP request. -/
def VerifyEnv : Type := HttpRequest → HttpOutcome

/-- The body of the `status_code == 200` branch of `test_login`: decode the
JSON, print the success banner, then print the five `user` fields and the
truncated access token.  Lines printed before a raised exception are kept;
the exception itself is returned to be handled by the outer `except`. -/
def loginSuccessLines (body : Option Json) : List String × Except PyExc Unit :=
  match body with
  | none => ([], .error (.generic "JSONDecodeError"))
  | some data =>
    match data with
    | .obj fs =>
      match (fs.lookup "user").getD (Json.obj []) with
      | .obj ufs =>
        let field := fun (k : String) => pyJsonStr ((ufs.lookup k).getD Json.null)
        let ls := ["✅ 登录成功！",
                   "用户ID: " ++ field "id",
                   "用户名: " ++ field "username",
                   "昵称: " ++ field "nickname",
                   "角色: " ++ field "role",
                   "积分: " ++ field "points"]
        match (fs.lookup "access_token").getD (Json.str "") with
        | .str tok => (ls ++ ["访问令牌: " ++ tok.take 50 ++ "..."], .ok ())
        | .arr xs => (ls ++ ["访问令牌: " ++ pyJsonStr (.arr (xs.take 50)) ++ "..."], .ok ())
        | _ => (ls, .error (.generic "TypeError: value is not subscriptable"))
      | _ => (["✅ 登录成功！"], .error (.generic "AttributeError: object has no attribute get"))
    | _ => ([], .error (.generic "AttributeError: object has no attribute get"))

/-- The `else` branch of `test_login` on a non-200 status: print the failure
banner, then the decoded `message` field, falling back to the raw response
text under the inner bare `except`. -/
def loginFailureLines (text : String) (body : Option Json) : List String :=
  "❌ 登录失败" ::
    match body with
    | some (Json.obj fs) =>
      ["错误信息: " ++ pyJsonStr ((fs.lookup "message").getD (Json.str "未知错误"))]
    | _ => ["响应内容: " ++ text]

/-- Console output of one iteration of the `for user in test_users` loop of
`test_login`, as a function of the outcome of its POST request. -/
def loginAttemptOutput (u : String) (o : HttpOutcome) : List String :=
  ("\n测试用户: " ++ u) ::
    match o with
    | .connError => ["❌ 无法连接到后端服务，请确保后端正在运行"]
    | .timeoutErr => ["❌ 请求超时"]
    | .otherError m => ["❌ 请求出错: " ++ m]
    | .ok status text body =>
      ("HTTP状态码: " ++ toString status) ::
        if status == 200 then
          match loginSuccessLines body with
          | (ls, .ok _) => ls
          | (ls, .error e) => ls ++ ["❌ 请求出错: " ++ pyExcMsg e]
        else
          loginFailureLines text body

/-- Shallow embedding of `test_login`: console lines and requests issued. -/
def test_login (env : VerifyEnv) : List String × List HttpRequest :=
  ("=== 登录功能测试 ===" ::
     (test_users.map (fun up => loginAttemptOutput up.1 (env (loginRequest up.1 up.2)))).flatten,
   test_users.map (fun up => loginRequest up.1 up.2))

/-- Shallow embedding of `check_backend_status`: console lines and the
returned boolean.  The bare `except` catches every request failure. -/
def checkBackendLines (o : HttpOutcome) : List String × Bool :=
  match o with
  | .ok s _ _ =>
    if s == 200 then (["✅ 后端服务正在运行"], true)
    else (["⚠️ 后端服务状态异常: " ++ toString s], false)
  | _ => (["❌ 后端服务未运行，请先启动后端服务"], false)

/-- The instructions printed when the health check fails. -/
def instructionLines : List String :=
  ["\n请先启动后端服务：", "cd backend-go && go run cmd/api/main.go",
   "或者使用Docker：", "docker-compose up backend"]

/-- A run trace of the login script: console output and requests issued. -/
structure RunTrace where
  output : List String
  requests : List HttpRequest
deriving DecidableEq, Repr

/-- Shallow embedding of the `__main__` block of `verify_login_fix.py`:
health check first, then either the login tests or the start-the-backend
instructions. -/
def verifyLoginMain (env : VerifyEnv) : RunTrace :=
  if (checkBackendLines (env healthRequest)).2 then
    { output := "=== 登录修复验证脚本 ===" ::
        ((checkBackendLines (env healthRequest)).1 ++ (test_login env).1),
      requests := healthRequest :: (test_login env).2 }
  else
    { output := "=== 登录修复验证脚本 ===" ::
        ((checkBackendLines (env healthRequest)).1 ++ instructionLines),
      requests := [healthRequest] }

/- ### test_leaderboard.py -/

/-- One entry of the hardcoded `endpoints` list of `test_leaderboard.py`. -/
structure Endpoint where
  name : String
  url : String
  params : String
deriving DecidableEq, Repr

/-- The hardcoded `endpoints` list, in source order. -/
def endpoints : List Endpoint :=
  [{ name := "全局排行榜", url := "http://localhost:1874/api/leaderboard", params := "" },
   { name := "夏季锦标赛排行榜", url := "http://localhost:1874/api/leaderboard",
     params := "?tournament=SUMMER&limit=5" },
   { name := "排行榜统计", url := "http://localhost:1874/api/leaderboard/stats", params := "" },
   { name := "用户排名", url := "http://localhost:1874/api/leaderboard/users/1/rank", params := "" }]

/-- The outcome of one `subprocess.run(["powershell", ...])` call:
`TimeoutExpired`, `FileNotFoundError` (PowerShell missing), any other
exception, or a completed process with its captured stdout and stderr. -/
inductive SubprocOutcome where
  | timeoutExpired
  | fileNotFound
  | otherError (msg : String)
  | completed (stdout : String) (stderr : String)
deriving DecidableEq, Repr

/-- Environment of the leaderboard script: the outcome of the PowerShell
subprocess spawned for each URL. -/
def LbEnv : Type := String → SubprocOutcome

/-- One subprocess invocation as recorded in the trace: the URL the spawned
PowerShell command requests, and the `timeout=` argument passed to
`subprocess.run`. -/
structure SubprocCall where
  url : String
  timeout : Nat
deriving DecidableEq, Repr

/-- The `subprocess.run` call inside `test_endpoint`, returning the
completed process or the raised exception. -/
def subprocessRun (env : LbEnv) (url : String) : Except PyExc (String × String) :=
  match env url with
  | .completed out err => .ok (out, err)
  | .timeoutExpired => .error (.generic "Command timed out after 10 seconds")
  | .fileNotFound => .error (.generic "No such file or directory: powershell")
  | .otherError m => .error (.generic m)

/-- Shallow embedding of `test_endpoint`: its `try` wraps the whole body and
`except Exception` prints the error, so the function returns console lines
and, as second component, whether any exception escapes it (never). -/
def test_endpoint (env : LbEnv) (url : String) : List String × Except PyExc Unit :=
  match subprocessRun env url with
  | .ok (out, err) => (out :: (if err = "" then [] else ["错误: " ++ err]), .ok ())
  | .error e => (["测试出错: " ++ pyExcMsg e], .ok ())

/-- A run trace of the leaderboard script: console output and the
subprocess calls attempted, in order. -/
structure LbTrace where
  output : List String
  calls : List SubprocCall
deriving DecidableEq, Repr

/-- The `for endpoint in endpoints` loop of `test_leaderboard_api`.  If an
exception escaped `test_endpoint` for some endpoint, it would abort the
loop and propagate (second component `.error`). -/
def runEndpoints (env : LbEnv) : List Endpoint → LbTrace × Except PyExc Unit
  | [] => ({ output := [], calls := [] }, .ok ())
  | ep :: rest =>
    match (test_endpoint env (ep.url ++ ep.params)).2 with
    | .error e =>
      ({ output := ("\n🔍 测试: " ++ ep.name) :: (test_endpoint env (ep.url ++ ep.params)).1,
         calls := [{ url := ep.url ++ ep.params, timeout := 10 }] },
       .error e)
    | .ok _ =>
      ({ output := ("\n🔍 测试: " ++ ep.name) :: (test_endpoint env (ep.url ++ ep.params)).1 ++
           (runEndpoints env rest).1.output,
         calls := { url := ep.url ++ ep.params, timeout := 10 } :: (runEndpoints env rest).1.calls },
       (runEndpoints env rest).2)

/-- Shallow embedding of `test_leaderboard_api`. -/
def test_leaderboard_api (env : LbEnv) : LbTrace × Except PyExc Unit :=
  ({ output := "=== 排行榜API测试 ===" :: (runEndpoints env endpoints).1.output,
     calls := (runEndpoints env endpoints).1.calls },
   (runEndpoints env endpoints).2)

/- ### Theorems: test_db_query.py -/

/-- A run in which the MySQL server refuses the TCP connection:
`mysql.connector.connect` raises and no statement is ever executed. -/
def dbConnRefusedEnv : DbEnv :=
  { connectResult := .error "2003: Can not connect to MySQL server on localhost:3306",
    isConnected := false,
    query := fun _ => .error "no connection" }

/-- A run in which the connection succeeds, `DESCRIBE users` returns one
well-formed row, the `createdAt` query returns no rows and the `created_at`
query fails as the script expects. -/
def dbHappyEnv : DbEnv :=
  { connectResult := .ok (), isConnected := true,
    query := fun s =>
      if s = describeStmt then .ok [[.str "id", .str "int"]]
      else if s = leaderboardQueryGood then .ok []
      else .error "1054 (42S22): Unknown column created_at in order clause" }

/-- C1: the claim that every failure mode is caught inside the script fails
on `test_db_query.py`: when `mysql.connector.connect` raises (connection
refusal), the outer `except` prints the message, but the `finally` block
then evaluates `if connection and connection.is_connected()` with the local
`connection` never assigned, so an `UnboundLocalError` escapes
`test_database_query` and the process exits with a traceback. -/
theorem claim_C1_db_uncaught_unbound_local :
    (test_database_query dbConnRefusedEnv).2 =
      Except.error (PyExc.unboundLocalError "connection") ∧
    (test_database_query dbConnRefusedEnv).1.output =
      ["MySQL error: 2003: Can not connect to MySQL server on localhost:3306"] :=
  ⟨rfl, rfl⟩

/-- On every path of `test_database_query`, the cursor-close and
connection-close flags equal the cursor-opened flag: the `finally` block
closes both exactly when the cursor was created. -/
theorem test_database_query_close_flags (env : DbEnv) :
    (test_database_query env).1.cursorClosed = (test_database_query env).1.cursorOpened ∧
    (test_database_query env).1.connClosed = (test_database_query env).1.cursorOpened := by
  unfold test_database_query
  split
  · simp
  · split
    · split
      · simp
      · split <;> simp
    · simp

/-- C2: whenever the database connection is used (a cursor was opened on
it), both the cursor and the connection are closed by the `finally` block
before `test_database_query` ends, on every path, including every
exception path. -/
theorem claim_C2_db_connection_released (env : DbEnv)
    (h : (test_database_query env).1.cursorOpened = true) :
    (test_database_query env).1.cursorClosed = true ∧
    (test_database_query env).1.connClosed = true := by
  obtain ⟨h1, h2⟩ := test_database_query_close_flags env
  rw [h1, h2, h]
  exact ⟨rfl, rfl⟩

/-- Witness for C2 at a concrete connected run. -/
theorem claim_C2_db_connection_released_witness :
    (test_database_query dbHappyEnv).1.cursorOpened = true ∧
    ((test_database_query dbHappyEnv).1.cursorClosed = true ∧
     (test_database_query dbHappyEnv).1.connClosed = true) :=
  ⟨rfl, claim_C2_db_connection_released dbHappyEnv rfl⟩

/-- When every row of the schema description has at least two columns, the
printing loop over `DESCRIBE users` raises no `IndexError`. -/
theorem describeLines_ok : ∀ (cols : List (List PyVal)),
    (∀ row ∈ cols, 2 ≤ row.length) → (describeLines cols).2 = Except.ok ()
  | [], _ => rfl
  | row :: rest, h => by
    have hr : 2 ≤ row.length := h row (List.mem_cons_self row rest)
    have ih := describeLines_ok rest (fun r hm => h r (List.mem_cons_of_mem row hm))
    match row, hr with
    | x :: y :: rs, _ =>
      simpa [describeLines, pyIndex] using ih

/-- C3: on a run in which the connection succeeds and the schema description
returns well-formed rows, `test_database_query` executes exactly three
literal statements in fixed order: the schema-description statement, the
ordering query using the column name `createdAt`, and the ordering query
using the column name `created_at`. -/
theorem claim_C3_db_literal_statements (env : DbEnv) (cols : List (List PyVal))
    (hc : env.connectResult = Except.ok ())
    (hi : env.isConnected = true)
    (hq : env.query describeStmt = Except.ok cols)
    (hw : ∀ row ∈ cols, 2 ≤ row.length) :
    (test_database_query env).1.queries =
      ["DESCRIBE users",
       "SELECT id, username, nickname, points FROM users ORDER BY points DESC, createdAt ASC LIMIT 5",
       "SELECT id, username FROM users ORDER BY points DESC, created_at ASC LIMIT 1"] := by
  have hd := describeLines_ok cols hw
  unfold test_database_query
  simp only [hc, hi, hq, hd, if_true]
  rfl

/-- Witness for C3 at a concrete healthy run. -/
theorem claim_C3_db_literal_statements_witness :
    dbHappyEnv.connectResult = Except.ok () ∧
    dbHappyEnv.isConnected = true ∧
    dbHappyEnv.query describeStmt = Except.ok [[PyVal.str "id", PyVal.str "int"]] ∧
    (∀ row ∈ [[PyVal.str "id", PyVal.str "int"]], 2 ≤ row.length) ∧
    (test_database_query dbHappyEnv).1.queries =
      ["DESCRIBE users",
       "SELECT id, username, nickname, points FROM users ORDER BY points DESC, createdAt ASC LIMIT 5",
       "SELECT id, username FROM users ORDER BY points DESC, created_at ASC LIMIT 1"] :=
  ⟨rfl, rfl, rfl, by decide,
   claim_C3_db_literal_statements dbHappyEnv [[PyVal.str "id", PyVal.str "int"]]
     rfl rfl rfl (by decide)⟩

/- ### Theorems: verify_login_fix.py -/

/-- A successful login body of the expected shape, with an extra top-level
field that the script never reads. -/
def sampleLoginJson : Json :=
  Json.obj
    [("user", Json.obj
        [("id", Json.num 1), ("username", Json.str "root"),
         ("nickname", Json.str "管理员"), ("role", Json.str "admin"),
         ("points", Json.num 1000)]),
     ("access_token", Json.str "eyJhbGciOiJIUzI1NiJ9.sample.payload.本令牌长度超过五十个字符用于验证截断行为的样例数据串"),
     ("expires_in", Json.num 3600)]

/-- C4: on a login response with HTTP status 200 whose body is a JSON object
with a `user` object and a string `access_token`, the script prints exactly
the banner, the five `user` fields `id`, `username`, `nickname`, `role`,
`points`, and the access token truncated to its first 50 characters; the
output is a function of those six fields only, whatever other fields the
response carries. -/
theorem claim_C4_login_success_fields (u text : String)
    (fs ufs : List (String × Json)) (tok : String)
    (hu : fs.lookup "user" = some (Json.obj ufs))
    (ht : fs.lookup "access_token" = some (Json.str tok)) :
    loginAttemptOutput u (HttpOutcome.ok 200 text (some (Json.obj fs))) =
      ["\n测试用户: " ++ u,
       "HTTP状态码: " ++ toString (200 : Nat),
       "✅ 登录成功！",
       "用户ID: " ++ pyJsonStr ((ufs.lookup "id").getD Json.null),
       "用户名: " ++ pyJsonStr ((ufs.lookup "username").getD Json.null),
       "昵称: " ++ pyJsonStr ((ufs.lookup "nickname").getD Json.null),
       "角色: " ++ pyJsonStr ((ufs.lookup "role").getD Json.null),
       "积分: " ++ pyJsonStr ((ufs.lookup "points").getD Json.null),
       "访问令牌: " ++ tok.take 50 ++ "..."] := by
  simp [loginAttemptOutput, loginSuccessLines, hu, ht]

/-- Witness for C4 at a concrete response carrying an extra field. -/
theorem claim_C4_login_success_fields_witness :
    ((Json.obj
        [("user", Json.obj
            [("id", Json.num 1), ("username", Json.str "root"),
             ("nickname", Json.str "管理员"), ("role", Json.str "admin"),
             ("points", Json.num 1000)]),
         ("access_token", Json.str "eyJhbGciOiJIUzI1NiJ9.sample.payload.本令牌长度超过五十个字符用于验证截断行为的样例数据串"),
         ("expires_in", Json.num 3600)] = sampleLoginJson) ∧
     loginAttemptOutput "root" (HttpOutcome.ok 200 "" (some sampleLoginJson)) =
       ["\n测试用户: root",
        "HTTP状态码: " ++ toString (200 : Nat),
        "✅ 登录成功！",
        "用户ID: " ++ pyJsonStr (Json.num 1),
        "用户名: " ++ pyJsonStr (Json.str "root"),
        "昵称: " ++ pyJsonStr (Json.str "管理员"),
        "角色: " ++ pyJsonStr (Json.str "admin"),
        "积分: " ++ pyJsonStr (Json.num 1000),
        "访问令牌: " ++ ("eyJhbGciOiJIUzI1NiJ9.sample.payload.本令牌长度超过五十个字符用于验证截断行为的样例数据串").take 50 ++ "..."]) :=
  ⟨rfl,
   claim_C4_login_success_fields "root" ""
     [("user", Json.obj
         [("id", Json.num 1), ("username", Json.str "root"),
          ("nickname", Json.str "管理员"), ("role", Json.str "admin"),
          ("points", Json.num 1000)]),
      ("access_token", Json.str "eyJhbGciOiJIUzI1NiJ9.sample.payload.本令牌长度超过五十个字符用于验证截断行为的样例数据串"),
      ("expires_in", Json.num 3600)]
     [("id", Json.num 1), ("username", Json.str "root"),
      ("nickname", Json.str "管理员"), ("role", Json.str "admin"),
      ("points", Json.num 1000)]
     "eyJhbGciOiJIUzI1NiJ9.sample.payload.本令牌长度超过五十个字符用于验证截断行为的样例数据串"
     rfl rfl⟩

/-- The requests of one run of `verify_login_fix.py`: the health check
alone, or the health check followed by the two hardcoded login attempts. -/
theorem verifyLoginMain_requests_char (env : VerifyEnv) :
    (verifyLoginMain env).requests = [healthRequest] ∨
    (verifyLoginMain env).requests =
      [healthRequest, loginRequest "root" "root123456", loginRequest "mengshang004" "123456"] := by
  unfold verifyLoginMain
  by_cases h : (checkBackendLines (env healthRequest)).2
  · right
    simp [h, test_login, test_users]
  · left
    simp [h]

/-- C7: the login script contacts `/health` first; when the health check
passes, it then exercises the login endpoint against exactly the two
hardcoded credential pairs `root`/`root123456` and then
`mengshang004`/`123456`, in that fixed order.  The embedding
`verifyLoginMain` is a function of the service responses alone: the script
takes no parameters and reads no other input. -/
theorem claim_C7_login_two_hardcoded_credentials (env : VerifyEnv)
    (h : (checkBackendLines (env healthRequest)).2 = true) :
    (verifyLoginMain env).requests =
      [healthRequest, loginRequest "root" "root123456", loginRequest "mengshang004" "123456"] ∧
    healthRequest.url = "http://localhost:1874/health" ∧
    healthRequest.method = "GET" ∧
    (loginRequest "root" "root123456").jsonBody = some [("username", "root"), ("password", "root123456")] ∧
    (loginRequest "mengshang004" "123456").jsonBody = some [("username", "mengshang004"), ("password", "123456")] := by
  refine ⟨?_, rfl, rfl, rfl, rfl⟩
  unfold verifyLoginMain
  simp [h, test_login, test_users]

/-- Witness for C7: a run whose health check returns HTTP 200. -/
theorem claim_C7_login_two_hardcoded_credentials_witness :
    ((checkBackendLines ((fun _ => HttpOutcome.ok 200 "" none : VerifyEnv) healthRequest)).2 = true) ∧
    (verifyLoginMain (fun _ => HttpOutcome.ok 200 "" none)).requests =
      [healthRequest, loginRequest "root" "root123456", loginRequest "mengshang004" "123456"] :=
  ⟨rfl, (claim_C7_login_two_hardcoded_credentials (fun _ => HttpOutcome.ok 200 "" none) rfl).1⟩

/-- C9: the login script never sends a login request unless the preceding
health check succeeded: when `check_backend_status` returns `False` (any
exception or non-200 status), the only request of the whole run is the GET
on `/health`, and the run ends by printing the instructions for starting
the backend. -/
theorem claim_C9_no_login_without_health (env : VerifyEnv)
    (h : (checkBackendLines (env healthRequest)).2 = false) :
    (verifyLoginMain env).requests = [healthRequest] ∧
    List.IsSuffix instructionLines (verifyLoginMain env).output := by
  unfold verifyLoginMain
  rw [h]
  exact ⟨rfl, ⟨"=== 登录修复验证脚本 ===" :: (checkBackendLines (env healthRequest)).1, rfl⟩⟩

/-- Witness for C9: a run whose health check raises a connection error. -/
theorem claim_C9_no_login_without_health_witness :
    ((checkBackendLines ((fun _ => HttpOutcome.connError : VerifyEnv) healthRequest)).2 = false) ∧
    (verifyLoginMain (fun _ => HttpOutcome.connError)).requests = [healthRequest] ∧
    List.IsSuffix instructionLines (verifyLoginMain (fun _ => HttpOutcome.connError)).output :=
  ⟨rfl, claim_C9_no_login_without_health (fun _ => HttpOutcome.connError) rfl⟩

/- ### Theorems: test_leaderboard.py -/

/-- `test_endpoint` catches every subprocess failure inside its own
`except Exception`, so no exception escapes it, for any outcome. -/
theorem test_endpoint_no_escape (env : LbEnv) (url : String) :
    (test_endpoint env url).2 = Except.ok () := by
  unfold test_endpoint subprocessRun
  cases env url <;> simp

/-- The four subprocess calls of one run of `test_leaderboard_api`, with
their URLs and timeouts, issued in source order whatever the outcomes. -/
theorem test_leaderboard_api_calls (env : LbEnv) :
    (test_leaderboard_api env).1.calls =
      [{ url := "http://localhost:1874/api/leaderboard", timeout := 10 },
       { url := "http://localhost:1874/api/leaderboard?tournament=SUMMER&limit=5", timeout := 10 },
       { url := "http://localhost:1874/api/leaderboard/stats", timeout := 10 },
       { url := "http://localhost:1874/api/leaderboard/users/1/rank", timeout := 10 }] ∧
    (test_leaderboard_api env).2 = Except.ok () := by
  unfold test_leaderboard_api
  simp [endpoints, runEndpoints, test_endpoint_no_escape]

/-- C10: a failure while testing one endpoint (subprocess timeout, missing
PowerShell, or any other exception raised in `test_endpoint`) is caught and
printed inside `test_endpoint`, so no exception escapes
`test_leaderboard_api` and all four endpoints are attempted in their fixed
order on every run. -/
theorem claim_C10_lb_all_endpoints_attempted (env : LbEnv) :
    (test_leaderboard_api env).2 = Except.ok () ∧
    (test_leaderboard_api env).1.calls.map SubprocCall.url =
      endpoints.map (fun ep => ep.url ++ ep.params) ∧
    endpoints.length = 4 := by
  obtain ⟨hc, hr⟩ := test_leaderboard_api_calls env
  refine ⟨hr, ?_, rfl⟩
  rw [hc]
  rfl

/- ### Theorems: cross-script claims -/

/-- C5: the scripts consume the HTTP service only at the fixed URLs.  The
leaderboard script requests exactly the plain leaderboard URL, the same URL
with `?tournament=SUMMER&limit=5`, the stats URL and the rank URL for user
id 1, in that order; the login script requests only `/health` and, after a
passing health check, `/api/v1/auth/login` with the hardcoded JSON
credential payload.  No other URL is ever requested. -/
theorem claim_C5_fixed_urls_only (envL : LbEnv) (envV : VerifyEnv) :
    (test_leaderboard_api envL).1.calls.map SubprocCall.url =
      ["http://localhost:1874/api/leaderboard",
       "http://localhost:1874/api/leaderboard?tournament=SUMMER&limit=5",
       "http://localhost:1874/api/leaderboard/stats",
       "http://localhost:1874/api/leaderboard/users/1/rank"] ∧
    ((verifyLoginMain envV).requests = [healthRequest] ∨
     (verifyLoginMain envV).requests =
       [healthRequest, loginRequest "root" "root123456", loginRequest "mengshang004" "123456"]) ∧
    healthRequest.url = "http://localhost:1874/health" ∧
    (∀ u p : String,
      (loginRequest u p).url = "http://localhost:1874/api/v1/auth/login" ∧
      (loginRequest u p).jsonBody = some [("username", u), ("password", p)]) := by
  refine ⟨?_, verifyLoginMain_requests_char envV, rfl, fun u p => ⟨rfl, rfl⟩⟩
  rw [(test_leaderboard_api_calls envL).1]
  rfl

/-- C6: every outbound call carries its hardcoded timeout (10 seconds for
each of the four leaderboard subprocess calls and for each login POST, 5
seconds for the health GET), and within one run no request is repeated:
each trace is duplicate-free, so every external request is issued exactly
once. -/
theorem claim_C6_timeouts_no_retries (envL : LbEnv) (envV : VerifyEnv) :
    (test_leaderboard_api envL).1.calls.map SubprocCall.timeout = [10, 10, 10, 10] ∧
    healthRequest.timeout = 5 ∧
    (∀ u p : String, (loginRequest u p).timeout = 10) ∧
    ((verifyLoginMain envV).requests.map HttpRequest.timeout = [5] ∨
     (verifyLoginMain envV).requests.map HttpRequest.timeout = [5, 10, 10]) ∧
    (test_leaderboard_api envL).1.calls.Nodup ∧
    (verifyLoginMain envV).requests.Nodup := by
  have hl := (test_leaderboard_api_calls envL).1
  refine ⟨by rw [hl]; rfl, rfl, fun u p => rfl, ?_, by rw [hl]; decide, ?_⟩
  · rcases verifyLoginMain_requests_char envV with h | h <;> rw [h]
    · left; rfl
    · right; rfl
  · rcases verifyLoginMain_requests_char envV with h | h <;> rw [h] <;> decide

/-- `test_endpoint` depends on the environment only through the outcome of
its own URL. -/
theorem test_endpoint_congr (l1 l2 : LbEnv) (url : String) (h : l1 url = l2 url) :
    test_endpoint l1 url = test_endpoint l2 url := by
  unfold test_endpoint subprocessRun
  rw [h]

/-- The endpoint loop depends on the environment only through the outcomes
of the URLs it visits. -/
theorem runEndpoints_congr (l1 l2 : LbEnv) : ∀ eps : List Endpoint,
    (∀ ep ∈ eps, l1 (ep.url ++ ep.params) = l2 (ep.url ++ ep.params)) →
    runEndpoints l1 eps = runEndpoints l2 eps := by
  intro eps
  induction eps with
  | nil => intro _; rfl
  | cons ep rest ih =>
    intro h
    have h0 := test_endpoint_congr l1 l2 (ep.url ++ ep.params)
      (h ep (List.mem_cons_self ep rest))
    have hr := ih (fun e he => h e (List.mem_cons_of_mem ep he))
    unfold runEndpoints
    rw [h0, hr]

/-- Two leaderboard runs whose subprocess calls all return the same outcome
are identical. -/
theorem test_leaderboard_api_congr (l1 l2 : LbEnv)
    (hl : ∀ c ∈ (test_leaderboard_api l1).1.calls, l1 c.url = l2 c.url) :
    test_leaderboard_api l1 = test_leaderboard_api l2 := by
  have hc := (test_leaderboard_api_calls l1).1
  have heps : ∀ ep ∈ endpoints, l1 (ep.url ++ ep.params) = l2 (ep.url ++ ep.params) := by
    intro ep hep
    fin_cases hep <;> exact hl ⟨_, 10⟩ (by rw [hc]; decide)
  unfold test_leaderboard_api
  rw [runEndpoints_congr l1 l2 endpoints heps]

/-- Two login-script runs whose HTTP requests all return the same outcome
are identical. -/
theorem verifyLoginMain_congr (e1 e2 : VerifyEnv)
    (hv : ∀ r ∈ (verifyLoginMain e1).requests, e1 r = e2 r) :
    verifyLoginMain e1 = verifyLoginMain e2 := by
  have hmem : healthRequest ∈ (verifyLoginMain e1).requests := by
    rcases verifyLoginMain_requests_char e1 with h | h <;> rw [h] <;> simp
  have hh : e1 healthRequest = e2 healthRequest := hv healthRequest hmem
  cases hcb : (checkBackendLines (e1 healthRequest)).2 with
  | false =>
    unfold verifyLoginMain
    rw [← hh, hcb]
    rfl
  | true =>
    have hreq : (verifyLoginMain e1).requests =
        [healthRequest, loginRequest "root" "root123456", loginRequest "mengshang004" "123456"] := by
      unfold verifyLoginMain
      rw [hcb]
      simp [test_login, test_users]
    have h1 : e1 (loginRequest "root" "root123456") = e2 (loginRequest "root" "root123456") :=
      hv _ (by rw [hreq]; simp)
    have h2 : e1 (loginRequest "mengshang004" "123456") = e2 (loginRequest "mengshang004" "123456") :=
      hv _ (by rw [hreq]; simp)
    unfold verifyLoginMain test_login
    rw [← hh, hcb]
    simp only [test_users, List.map_cons, List.map_nil, List.flatten]
    rw [← h1, ← h2]

/-- Two database-script runs whose connect outcome, connectivity flag and
executed queries all agree are identical. -/
theorem test_database_query_congr (d1 d2 : DbEnv)
    (hc : d1.connectResult = d2.connectResult)
    (hi : d1.isConnected = d2.isConnected)
    (hq : ∀ q ∈ (test_database_query d1).1.queries, d1.query q = d2.query q) :
    test_database_query d1 = test_database_query d2 := by
  unfold test_database_query
  rw [← hc, ← hi]
  cases hcr : d1.connectResult with
  | error e => rfl
  | ok u =>
    cases hic : d1.isConnected with
    | false => rfl
    | true =>
      have hmemd : describeStmt ∈ (test_database_query d1).1.queries := by
        unfold test_database_query
        rw [hcr]
        simp only [hic, if_true]
        split
        · simp
        · split <;> simp
      have hqd := hq describeStmt hmemd
      rw [← hqd]
      simp only [reduceIte]
      split
      · rfl
      · rename_i cols heq
        split
        · rfl
        · rename_i u2 hdr2
          have hqq : (test_database_query d1).1.queries =
              [describeStmt, leaderboardQueryGood, leaderboardQueryBad] := by
            unfold test_database_query
            rw [hcr]
            simp only [hic, if_true, heq, hdr2]
          have hg := hq leaderboardQueryGood (by rw [hqq]; simp)
          have hb := hq leaderboardQueryBad (by rw [hqq]; simp)
          unfold goodQuerySection badQuerySection
          rw [← hg, ← hb]

/-- C8: each script is deterministic in the responses it observes: for any
two runs of the same script in which every external call made during the
first run returns the same response, the whole trace — console output
included — is identical.  The embeddings take no input besides the service
responses: no randomness, clock or environment appears. -/
theorem claim_C8_deterministic_in_responses
    (e1 e2 : VerifyEnv) (l1 l2 : LbEnv) (d1 d2 : DbEnv)
    (hv : ∀ r ∈ (verifyLoginMain e1).requests, e1 r = e2 r)
    (hl : ∀ c ∈ (test_leaderboard_api l1).1.calls, l1 c.url = l2 c.url)
    (hdc : d1.connectResult = d2.connectResult)
    (hdi : d1.isConnected = d2.isConnected)
    (hdq : ∀ q ∈ (test_database_query d1).1.queries, d1.query q = d2.query q) :
    verifyLoginMain e1 = verifyLoginMain e2 ∧
    test_leaderboard_api l1 = test_leaderboard_api l2 ∧
    test_database_query d1 = test_database_query d2 :=
  ⟨verifyLoginMain_congr e1 e2 hv,
   test_leaderboard_api_congr l1 l2 hl,
   test_database_query_congr d1 d2 hdc hdi hdq⟩

/-- A login-script environment that fails the health check. -/
def envHealthDown : VerifyEnv := fun _ => HttpOutcome.connError

/-- A login-script environment agreeing with `envHealthDown` on the health
check but not on the login requests (which are then never issued). -/
def envHealthDownOther : VerifyEnv := fun r =>
  if r = healthRequest then HttpOutcome.connError else HttpOutcome.timeoutErr

/-- A leaderboard environment whose subprocesses all complete. -/
def lbEnvAllOk : LbEnv := fun _ => SubprocOutcome.completed "ok" ""

/-- Witness for C8: two login environments that differ only on requests the
run never makes produce identical traces. -/
theorem claim_C8_deterministic_in_responses_witness :
    verifyLoginMain envHealthDown = verifyLoginMain envHealthDownOther ∧
    test_leaderboard_api lbEnvAllOk = test_leaderboard_api lbEnvAllOk ∧
    test_database_query dbHappyEnv = test_database_query dbHappyEnv :=
  claim_C8_deterministic_in_responses envHealthDown envHealthDownOther
    lbEnvAllOk lbEnvAllOk dbHappyEnv dbHappyEnv
    (by
      intro r hr
      have hc : (verifyLoginMain envHealthDown).requests = [healthRequest] := rfl
      rw [hc] at hr
      simp only [List.mem_singleton] at hr
      subst hr
      rfl)
    (fun c _ => rfl) rfl rfl (fun q _ => rfl)
